import Mathlib

/-!
Verification of the role/permission model, navigation filter, route guard,
messaging poller and role-management guards of the school/class management
frontend.  Each definition is a shallow embedding of the corresponding
JavaScript source (the role helper module, `App.jsx`'s `ProtectedRoute`,
`Sidebar.jsx`'s navigation filter, `Chat.jsx`'s polling/send/unread logic and
the `RoleManagement` page handlers).  Users may be absent (`Option User`
models a `null`/`undefined` user); role strings are open, as in the source.
-/

namespace SchoolApp

/-- A user record as the role helper and the pages consume it: the role
helper reads `user?.role`, the chat and role-management pages read `id`,
`name` and `email` (both of which the source guards with `?.`, so they are
optional here). -/
structure User where
  id : Nat
  name : Option String
  email : Option String
  role : String
deriving Repr, DecidableEq

/-- `user?.role`: `none` when the user is absent (JS `undefined`). -/
def userRole : Option User → Option String
  | none => none
  | some u => some u.role

/-- Source: `hasRole = (user, role) => user?.role === role`. -/
def hasRole (user : Option User) (role : String) : Bool :=
  userRole user == some role

/-- Source: `isSuperAdmin = (user) => user?.role === ROLES.SUPERADMIN`. -/
def isSuperAdmin (user : Option User) : Bool :=
  userRole user == some "superadmin"

/-- Source: `isAdmin = (user) => user?.role === ROLES.ADMIN || user?.role === ROLES.SUPERADMIN`. -/
def isAdmin (user : Option User) : Bool :=
  userRole user == some "admin" || userRole user == some "superadmin"

/-- Source: `isTeacherOrAdmin` checks teacher, admin or superadmin. -/
def isTeacherOrAdmin (user : Option User) : Bool :=
  userRole user == some "teacher" || userRole user == some "admin"
    || userRole user == some "superadmin"

/-- Source: `isStudent = (user) => user?.role === ROLES.STUDENT`. -/
def isStudent (user : Option User) : Bool :=
  userRole user == some "student"

/-- Source: `hasAnyRole = (user, roles) => roles.includes(user?.role)`; an
absent user's `undefined` role is never an element of a list of strings. -/
def hasAnyRole (user : Option User) (roles : List String) : Bool :=
  match userRole user with
  | some r => roles.contains r
  | none => false

/-- Source: `canViewStudents = (user) => hasAnyRole(user, [ROLES.ADMIN, ROLES.TEACHER])`. -/
def canViewStudents (user : Option User) : Bool :=
  hasAnyRole user ["admin", "teacher"]

def canCreateStudents (user : Option User) : Bool := isAdmin user

def canEditStudents (user : Option User) : Bool := isAdmin user

def canDeleteStudents (user : Option User) : Bool := isAdmin user

/-- Source: `canViewTeachers = (user) => hasAnyRole(user, [ROLES.ADMIN, ROLES.TEACHER])`. -/
def canViewTeachers (user : Option User) : Bool :=
  hasAnyRole user ["admin", "teacher"]

def canManageTeachers (user : Option User) : Bool := isAdmin user

def canManageClasses (user : Option User) : Bool := isAdmin user

def canManageEnrollments (user : Option User) : Bool :=
  hasAnyRole user ["admin", "teacher"]

def canManageUsers (user : Option User) : Bool := isAdmin user

def canManageAdmins (user : Option User) : Bool := isSuperAdmin user

def canChangeRoles (user : Option User) : Bool := isSuperAdmin user

def canDeleteUsers (user : Option User) : Bool := isSuperAdmin user

def canViewAnalytics (user : Option User) : Bool :=
  hasAnyRole user ["admin", "teacher"]

def canManageSchools (user : Option User) : Bool := isAdmin user

def canViewSchools (user : Option User) : Bool := isTeacherOrAdmin user

def canViewBranches (user : Option User) : Bool := isTeacherOrAdmin user

def canViewClasses (user : Option User) : Bool := isTeacherOrAdmin user

def canViewEnrollments (user : Option User) : Bool := isTeacherOrAdmin user

def canViewUsers (user : Option User) : Bool := isAdmin user

/-- Source: `canViewMessages = (user) => true` (the comment in the source reads
"All authenticated users can view messages"; the predicate itself ignores its
argument). -/
def canViewMessages (_user : Option User) : Bool := true

def canViewReports (user : Option User) : Bool := isTeacherOrAdmin user

/-- Source: `canViewDashboard = (user) => true`. -/
def canViewDashboard (_user : Option User) : Bool := true

/-- Modelled from the spec: `canViewLessonPlans` is imported by the sidebar
from the role helper, but the role-helper revision defining it is missing from
the sources.  The spec's navigation scenario lists the lesson-plans entry for a
teacher, so it is modelled as the teacher-or-admin gate used by every sibling
view capability. -/
def canViewLessonPlans (user : Option User) : Bool := isTeacherOrAdmin user

/-- A concrete superadmin user. -/
def superadminUser : User :=
  { id := 1, name := some "S", email := some "s at example", role := "superadmin" }

/-- A concrete admin user. -/
def adminUser : User :=
  { id := 2, name := some "A", email := some "a at example", role := "admin" }

/-- A concrete teacher user. -/
def teacherUser : User :=
  { id := 3, name := some "T", email := some "t at example", role := "teacher" }

/-- A concrete student user. -/
def studentUser : User :=
  { id := 4, name := some "St", email := some "st at example", role := "student" }

/-- Claim C1: the spec's table grants every view capability to teacher, admin
and superadmin.  The code diverges for superadmin: `canViewStudents` and
`canViewTeachers` are written over the list `[admin, teacher]`, which omits
superadmin, while every sibling view capability includes superadmin and the
same file even grants superadmin create/edit/delete of students — so a
superadmin may create students it cannot view.  This theorem records the code's
behaviour at the failing input (a superadmin) and at the conforming inputs
(teacher, admin). -/
theorem superadmin_view_capabilities_gap :
    canViewStudents (some superadminUser) = false
      ∧ canViewTeachers (some superadminUser) = false
      ∧ canCreateStudents (some superadminUser) = true
      ∧ canEditStudents (some superadminUser) = true
      ∧ canDeleteStudents (some superadminUser) = true
      ∧ canManageTeachers (some superadminUser) = true
      ∧ canViewSchools (some superadminUser) = true
      ∧ canViewBranches (some superadminUser) = true
      ∧ canViewClasses (some superadminUser) = true
      ∧ canViewEnrollments (some superadminUser) = true
      ∧ canViewReports (some superadminUser) = true
      ∧ (canViewStudents (some teacherUser) = true
          ∧ canViewTeachers (some teacherUser) = true
          ∧ canViewSchools (some teacherUser) = true
          ∧ canViewBranches (some teacherUser) = true
          ∧ canViewClasses (some teacherUser) = true
          ∧ canViewEnrollments (some teacherUser) = true
          ∧ canViewReports (some teacherUser) = true)
      ∧ (canViewStudents (some adminUser) = true
          ∧ canViewTeachers (some adminUser) = true
          ∧ canViewSchools (some adminUser) = true
          ∧ canViewBranches (some adminUser) = true
          ∧ canViewClasses (some adminUser) = true
          ∧ canViewEnrollments (some adminUser) = true
          ∧ canViewReports (some adminUser) = true) := by
  decide

/-- Claim C2, counterexample: the claim says every capability predicate —
including `canViewMessages` — returns `false` for an absent user, but
`canViewMessages` returns `true` unconditionally, so it returns `true` for the
absent (`none`) user as well. -/
theorem canViewMessages_absent_user_true :
    canViewMessages none = true ∧ canViewDashboard none = true := by
  decide

/-- Claim C2 (amended): for an absent user, and for any user whose role string
is outside the enumerated set, every role-gated capability predicate and role
helper returns false and none throws (the embedding is total by construction);
`canViewMessages` and `canViewDashboard` are the exception: they return `true`
unconditionally, for the absent user too — authentication gating for them
lives in the routing layer, not in the predicate. -/
theorem policy_absent_or_unknown_denies (u : Option User)
    (h : ∀ r, r ∈ (["superadmin", "admin", "teacher", "student"] : List String) →
      userRole u ≠ some r) :
    isSuperAdmin u = false
      ∧ isAdmin u = false
      ∧ isTeacherOrAdmin u = false
      ∧ isStudent u = false
      ∧ hasAnyRole u ["superadmin", "admin", "teacher", "student"] = false
      ∧ canViewStudents u = false
      ∧ canCreateStudents u = false
      ∧ canEditStudents u = false
      ∧ canDeleteStudents u = false
      ∧ canViewTeachers u = false
      ∧ canManageTeachers u = false
      ∧ canManageClasses u = false
      ∧ canManageEnrollments u = false
      ∧ canManageUsers u = false
      ∧ canManageAdmins u = false
      ∧ canChangeRoles u = false
      ∧ canDeleteUsers u = false
      ∧ canViewAnalytics u = false
      ∧ canManageSchools u = false
      ∧ canViewSchools u = false
      ∧ canViewBranches u = false
      ∧ canViewClasses u = false
      ∧ canViewEnrollments u = false
      ∧ canViewUsers u = false
      ∧ canViewReports u = false
      ∧ canViewLessonPlans u = false
      ∧ canViewMessages u = true
      ∧ canViewDashboard u = true := by
  match u with
  | none =>
    simp [isSuperAdmin, isAdmin, isTeacherOrAdmin, isStudent, hasAnyRole,
      canViewStudents, canCreateStudents, canEditStudents, canDeleteStudents,
      canViewTeachers, canManageTeachers, canManageClasses, canManageEnrollments,
      canManageUsers, canManageAdmins, canChangeRoles, canDeleteUsers,
      canViewAnalytics, canManageSchools, canViewSchools, canViewBranches,
      canViewClasses, canViewEnrollments, canViewUsers, canViewReports,
      canViewLessonPlans, canViewMessages, canViewDashboard, userRole]
  | some user =>
    have h1 : user.role ≠ "superadmin" := by
      intro e
      exact h "superadmin" (by simp) (by simp [userRole, e])
    have h2 : user.role ≠ "admin" := by
      intro e
      exact h "admin" (by simp) (by simp [userRole, e])
    have h3 : user.role ≠ "teacher" := by
      intro e
      exact h "teacher" (by simp) (by simp [userRole, e])
    have h4 : user.role ≠ "student" := by
      intro e
      exact h "student" (by simp) (by simp [userRole, e])
    simp [isSuperAdmin, isAdmin, isTeacherOrAdmin, isStudent, hasAnyRole,
      canViewStudents, canCreateStudents, canEditStudents, canDeleteStudents,
      canViewTeachers, canManageTeachers, canManageClasses, canManageEnrollments,
      canManageUsers, canManageAdmins, canChangeRoles, canDeleteUsers,
      canViewAnalytics, canManageSchools, canViewSchools, canViewBranches,
      canViewClasses, canViewEnrollments, canViewUsers, canViewReports,
      canViewLessonPlans, canViewMessages, canViewDashboard, userRole,
      h1, h2, h3, h4]

/-- Witness for the amended claim C2 at the concrete absent user. -/
theorem policy_absent_or_unknown_denies_witness :
    isSuperAdmin none = false
      ∧ isAdmin none = false
      ∧ isTeacherOrAdmin none = false
      ∧ isStudent none = false
      ∧ hasAnyRole none ["superadmin", "admin", "teacher", "student"] = false
      ∧ canViewStudents none = false
      ∧ canCreateStudents none = false
      ∧ canEditStudents none = false
      ∧ canDeleteStudents none = false
      ∧ canViewTeachers none = false
      ∧ canManageTeachers none = false
      ∧ canManageClasses none = false
      ∧ canManageEnrollments none = false
      ∧ canManageUsers none = false
      ∧ canManageAdmins none = false
      ∧ canChangeRoles none = false
      ∧ canDeleteUsers none = false
      ∧ canViewAnalytics none = false
      ∧ canManageSchools none = false
      ∧ canViewSchools none = false
      ∧ canViewBranches none = false
      ∧ canViewClasses none = false
      ∧ canViewEnrollments none = false
      ∧ canViewUsers none = false
      ∧ canViewReports none = false
      ∧ canViewLessonPlans none = false
      ∧ canViewMessages none = true
      ∧ canViewDashboard none = true :=
  policy_absent_or_unknown_denies none (by decide)

/-- What the route guard renders: the loading spinner, a redirect to the login
entry point, or the guarded child view. -/
inductive RouteView
  | loading
  | redirectLogin
  | children
deriving Repr, DecidableEq

/-- JS truthiness of a `localStorage.getItem` result: `null` (absent) and the
empty string are falsy, every other string is truthy. -/
def truthyStr : Option String → Bool
  | none => false
  | some s => s != ""

/-- `AuthContext` exposes `isAuthenticated: !!user`. -/
def isAuthenticatedOf (user : Option User) : Bool := user.isSome

/-- `ProtectedRoute` from `App.jsx`: shows the spinner while loading, then
computes `hasAuth = isAuthenticated && user || (token && storedUser)` where
`token` and `storedUser` are read from durable local storage, and redirects to
`/login` when `hasAuth` is falsy. -/
def protectedRoute (loading : Bool) (user : Option User)
    (token storedUser : Option String) : RouteView :=
  if loading then RouteView.loading
  else if (isAuthenticatedOf user && user.isSome)
      || (truthyStr token && truthyStr storedUser) then RouteView.children
  else RouteView.redirectLogin

/-- Network requests issued by the pages modelled here. -/
inductive ApiCall
  | getUsers
  | getAllUsers
  | changeUserRole (userId : Nat) (role : String)
  | deleteUser (userId : Nat)
deriving Repr, DecidableEq

/-- The `Users` page's mount effect (`useEffect(() => { fetchUsers() }, [])`):
it calls `usersAPI.getAll()` unconditionally — no role is consulted. -/
def usersPageMountCalls (_user : Option User) : List ApiCall := [ApiCall.getUsers]

/-- Claim C3, counterexample: an authenticated student reaching the guarded
`/users` route is rendered the child view (the route guard checks only
authentication, it has no access-denied outcome), and the Users view issues
its roster fetch on mount even though the student holds no user-management
capability. -/
theorem users_route_no_role_gate :
    protectedRoute false (some studentUser) (some "tok") (some "stored") = RouteView.children
      ∧ usersPageMountCalls (some studentUser) = [ApiCall.getUsers]
      ∧ canManageUsers (some studentUser) = false := by
  decide

/-- Claim C3 (amended): unauthenticated access to a guarded route redirects to
the login entry point, but the route guard performs no role check: every
authenticated user, whatever the role, is rendered the guarded child view, and
the Users view runs its data fetch on mount regardless of the viewer's role. -/
theorem route_guard_checks_authentication_only (user : Option User)
    (token stored : Option String) :
    protectedRoute false none none none = RouteView.redirectLogin
      ∧ (user.isSome = true →
          protectedRoute false user token stored = RouteView.children)
      ∧ usersPageMountCalls user = [ApiCall.getUsers] := by
  refine ⟨by decide, ?_, by simp [usersPageMountCalls]⟩
  intro h
  match user, h with
  | some u, _ => simp [protectedRoute, isAuthenticatedOf]

/-- Claim C10, counterexample: the claim reads the redirect as happening only
when a stored entry is absent, but `ProtectedRoute` tests JS truthiness, so
entries that are present with an empty-string value still redirect. -/
theorem storage_present_but_empty_redirects :
    protectedRoute false none (some "") (some "") = RouteView.redirectLogin := by
  decide

/-- Claim C10 (amended): whenever the durable `token` and `user` entries are
both present with non-empty values, `ProtectedRoute` renders the guarded child
even if the in-memory session is unauthenticated; and (outside the loading
phase) it redirects to `/login` exactly when the in-memory session is
unauthenticated and at least one of the two stored entries is absent or
empty. -/
theorem storage_fallback_renders_children (t s : String)
    (ht : t ≠ "") (hs : s ≠ "") :
    (∀ user : Option User,
        protectedRoute false user (some t) (some s) = RouteView.children)
      ∧ (∀ (user : Option User) (token stored : Option String),
          protectedRoute false user token stored = RouteView.redirectLogin ↔
            user = none ∧ (truthyStr token = false ∨ truthyStr stored = false)) := by
  constructor
  · intro user
    cases user <;> simp [protectedRoute, isAuthenticatedOf, truthyStr, ht, hs]
  · intro user token stored
    rcases h1 : truthyStr token <;> rcases h2 : truthyStr stored <;>
      cases user <;> simp [protectedRoute, isAuthenticatedOf, h1, h2]

/-- Witness for the amended claim C10 at concrete stored values. -/
theorem storage_fallback_renders_children_witness :
    protectedRoute false none (some "tok") (some "stored-user") = RouteView.children :=
  (storage_fallback_renders_children "tok" "stored-user" (by decide) (by decide)).1 none

/-- One candidate navigation entry of the sidebar (`Sidebar.jsx`): its route
path, label, and the capability gate evaluated for the current user. -/
structure NavLink where
  path : String
  label : String
  canAccess : Bool
deriving Repr, DecidableEq

/-- The fixed candidate list `allLinks` of `Sidebar.jsx`, in declaration
order, each entry paired with its gating capability. -/
def allLinks (user : Option User) : List NavLink :=
  [ { path := "/", label := "Dashboard", canAccess := canViewDashboard user },
    { path := "/schools", label := "Schools", canAccess := canViewSchools user },
    { path := "/branches", label := "Branches", canAccess := canViewBranches user },
    { path := "/students", label := "Students", canAccess := canViewStudents user },
    { path := "/classes", label := "Classes", canAccess := canViewClasses user },
    { path := "/teachers", label := "Teachers", canAccess := canViewTeachers user },
    { path := "/lesson-plans", label := "Lesson Plans", canAccess := canViewLessonPlans user },
    { path := "/enrollments", label := "Enrollments", canAccess := canViewEnrollments user },
    { path := "/users", label := "Users", canAccess := canViewUsers user },
    { path := "/chat", label := "Messages", canAccess := canViewMessages user },
    { path := "/reports", label := "Reports", canAccess := canViewReports user },
    { path := "/role-management", label := "Role Management", canAccess := canChangeRoles user } ]

/-- The sidebar's `navLinks` memo: an absent user gets no entries; otherwise
the candidates that evaluate true are retained, in declaration order. -/
def navLinks (user : Option User) : List NavLink :=
  match user with
  | none => []
  | some _ => (allLinks user).filter (fun l => l.canAccess)

/-- Claim C4, counterexample: the role-management entry is gated on
`canChangeRoles`, which holds for superadmin only, so a teacher's retained
list — contrary to the claim — does not contain `/role-management`. -/
theorem teacher_navLinks_no_role_management :
    ((navLinks (some teacherUser)).map (fun l => l.path)).contains "/role-management"
      = false := by
  decide

/-- Claim C4 (amended): a teacher's retained navigation entries are exactly
dashboard, schools, branches, students, classes, teachers, lesson-plans,
enrollments, messages and reports, in the fixed declaration order of the
candidate list — never users (manage) and, unlike the claim's list, never
role-management (superadmin-only gate). -/
theorem teacher_navLinks_exact :
    (navLinks (some teacherUser)).map (fun l => l.path)
      = ["/", "/schools", "/branches", "/students", "/classes", "/teachers",
         "/lesson-plans", "/enrollments", "/chat", "/reports"] := by
  decide

/-- Lower-casing as `String.prototype.toLowerCase` is used by the search
filter, over the character list so the kernel can evaluate it. -/
def jsToLower (s : String) : String := String.mk (s.data.map Char.toLower)

/-- Helper for `jsIncludes`: does the needle occur at some position of the
haystack? -/
def jsIncludesAux (needle : List Char) : List Char → Bool
  | [] => needle.isEmpty
  | c :: rest => List.isPrefixOf needle (c :: rest) || jsIncludesAux needle rest

/-- `String.prototype.includes`: substring containment (the empty needle is
contained in every string). -/
def jsIncludes (s sub : String) : Bool := jsIncludesAux sub.data s.data

/-- The distinct client-side error messages the RoleManagement handlers set. -/
inductive RMError
  | onlySuperAdminsChangeRoles
  | cannotChangeOwnRole
  | onlySuperAdminsDeleteUsers
  | cannotDeleteOwnAccount
deriving Repr, DecidableEq

/-- `RoleManagement.handleRoleChange(userId, role)`: guards in source order —
non-superadmin, self-demotion, then the peer-superadmin confirmation prompt
(`confirmPeerChange` models the `window.confirm` answer) — and only then the
`superadminAPI.changeUserRole` request.  Result: the error set (if any) and
the network calls issued. -/
def handleRoleChange (currentUser : User) (users : List User) (userId : Nat)
    (role : String) (confirmPeerChange : Bool) : Option RMError × List ApiCall :=
  if !(isSuperAdmin (some currentUser)) then
    (some RMError.onlySuperAdminsChangeRoles, [])
  else if userId == currentUser.id && role != "superadmin" then
    (some RMError.cannotChangeOwnRole, [])
  else
    match users.find? (fun u => u.id == userId) with
    | some target =>
      if target.role == "superadmin" && userId != currentUser.id && !confirmPeerChange then
        (none, [])
      else (none, [ApiCall.changeUserRole userId role])
    | none => (none, [ApiCall.changeUserRole userId role])

/-- `RoleManagement.handleDeleteUser(userId)`: the initial `window.confirm`
(`confirmDelete`), then the non-superadmin guard, the self-deletion guard and
the peer-superadmin confirmation (`confirmSuperDelete`) before the
`superadminAPI.deleteUser` request. -/
def handleDeleteUser (currentUser : User) (users : List User) (userId : Nat)
    (confirmDelete confirmSuperDelete : Bool) : Option RMError × List ApiCall :=
  if !confirmDelete then (none, [])
  else if !(isSuperAdmin (some currentUser)) then
    (some RMError.onlySuperAdminsDeleteUsers, [])
  else if userId == currentUser.id then
    (some RMError.cannotDeleteOwnAccount, [])
  else
    match users.find? (fun u => u.id == userId) with
    | some target =>
      if target.role == "superadmin" && !confirmSuperDelete then (none, [])
      else (none, [ApiCall.deleteUser userId])
    | none => (none, [ApiCall.deleteUser userId])

/-- Claim C8: a superadmin invoking a role change on themselves (to a role
other than superadmin) or a deletion of their own account is stopped by the
client-side self-action guards: the dedicated error is set and no network
call is issued (for deletion, with the initial confirm declined nothing at
all happens — still no network call). -/
theorem self_action_guards (currentUser : User) (users : List User)
    (c1 c2 : Bool) (hrole : currentUser.role = "superadmin") :
    handleRoleChange currentUser users currentUser.id "admin" c1
        = (some RMError.cannotChangeOwnRole, [])
      ∧ handleDeleteUser currentUser users currentUser.id true c2
        = (some RMError.cannotDeleteOwnAccount, [])
      ∧ handleDeleteUser currentUser users currentUser.id false c2 = (none, []) := by
  refine ⟨?_, ?_, ?_⟩ <;>
    simp [handleRoleChange, handleDeleteUser, isSuperAdmin, userRole, hrole]

/-- Witness for claim C8 at a concrete superadmin. -/
theorem self_action_guards_witness :
    handleRoleChange superadminUser [superadminUser, studentUser] superadminUser.id
        "admin" true = (some RMError.cannotChangeOwnRole, [])
      ∧ handleDeleteUser superadminUser [superadminUser, studentUser] superadminUser.id
          true true = (some RMError.cannotDeleteOwnAccount, [])
      ∧ handleDeleteUser superadminUser [superadminUser, studentUser] superadminUser.id
          false true = (none, []) :=
  self_action_guards superadminUser [superadminUser, studentUser] true true rfl

/-- What the RoleManagement page renders. -/
inductive RMView
  | accessDenied
  | loading
  | roster
deriving Repr, DecidableEq

/-- The RoleManagement fetch effect: `superadminAPI.getAllUsers()` runs only
for a present teacher/admin/superadmin user. -/
def roleManagementFetchCalls (user : Option User) : List ApiCall :=
  if user.isSome && isTeacherOrAdmin user then [ApiCall.getAllUsers] else []

/-- The RoleManagement render gate: `if (!user || !isTeacherOrAdmin(user))`
renders the access-denied screen, then the loading spinner, then the
roster. -/
def roleManagementView (user : Option User) (loading : Bool) : RMView :=
  if !(user.isSome && isTeacherOrAdmin user) then RMView.accessDenied
  else if loading then RMView.loading
  else RMView.roster

/-- The row test of `RoleManagement.filteredUsers` for one user: the role
dropdown (`filterRole === 'all' || u.role === filterRole`) and the search term
against lower-cased name or email (both behind `?.`, so an absent field
fails its disjunct). -/
def matchesFilters (u : User) (filterRole searchTerm : String) : Bool :=
  (filterRole == "all" || u.role == filterRole)
    && ((match u.name with
          | some n => jsIncludes (jsToLower n) (jsToLower searchTerm)
          | none => false)
        || (match u.email with
            | some e => jsIncludes (jsToLower e) (jsToLower searchTerm)
            | none => false))

/-- `RoleManagement.filteredUsers`: the fetched users filtered by the dropdown
and the search term only — the viewer's own role is never consulted. -/
def filteredUsers (users : List User) (filterRole searchTerm : String) : List User :=
  users.filter (fun u => matchesFilters u filterRole searchTerm)

/-- Claim C9, counterexample: an admin viewer passes the render gate and the
client displays every row the backend returned — including a superadmin row —
since `filteredUsers` never consults the viewer's role; so the client does not
scope the roster to teacher/student rows for an admin. -/
theorem admin_roster_shows_superadmin_row :
    roleManagementView (some adminUser) false = RMView.roster
      ∧ filteredUsers [superadminUser, studentUser] "all" ""
          = [superadminUser, studentUser]
      ∧ roleManagementFetchCalls (some adminUser) = [ApiCall.getAllUsers] := by
  decide

/-- The empty search term is contained in every string, as with JS
`includes('')`. -/
theorem jsIncludes_empty (s : String) : jsIncludes s "" = true := by
  show jsIncludesAux [] s.data = true
  induction s.data with
  | nil => rfl
  | cons c rest ih => simp [jsIncludesAux, List.isPrefixOf]

/-- Claim C9 (amended): a student (or an absent user) is hard-denied — the
access-denied screen renders and no fetch is issued — while teacher, admin and
superadmin viewers all reach the roster; the roster itself is not scoped by
the viewer's role: with the default filters (dropdown `all`, empty search)
every fetched row is displayed, whatever its role, for every viewer that
passes the gate (any scoping is left to the backend's response). -/
theorem role_management_scoping (users : List User)
    (hnames : ∀ u ∈ users, u.name.isSome = true) :
    roleManagementView (some studentUser) false = RMView.accessDenied
      ∧ roleManagementFetchCalls (some studentUser) = []
      ∧ roleManagementView none false = RMView.accessDenied
      ∧ roleManagementFetchCalls none = []
      ∧ roleManagementView (some teacherUser) false = RMView.roster
      ∧ roleManagementView (some adminUser) false = RMView.roster
      ∧ roleManagementView (some superadminUser) false = RMView.roster
      ∧ filteredUsers users "all" "" = users := by
  refine ⟨by decide, by decide, by decide, by decide, by decide, by decide, by decide, ?_⟩
  unfold filteredUsers
  rw [List.filter_eq_self]
  intro u hu
  have hn := hnames u hu
  match hn2 : u.name with
  | some n => simp [matchesFilters, jsToLower, hn2, jsIncludes_empty]
  | none => rw [hn2] at hn; simp at hn

/-- Witness for the amended claim C9 at a concrete roster. -/
theorem role_management_scoping_witness :
    roleManagementView (some studentUser) false = RMView.accessDenied
      ∧ filteredUsers [superadminUser, adminUser, teacherUser, studentUser] "all" ""
        = [superadminUser, adminUser, teacherUser, studentUser] :=
  have h := role_management_scoping
    [superadminUser, adminUser, teacherUser, studentUser] (by decide)
  ⟨h.1, h.2.2.2.2.2.2.2⟩

/-- One interval timer as `setInterval` creates it: a runtime handle, the
contact whose conversation it re-fetches, and its period in milliseconds. -/
structure PollTimer where
  id : Nat
  contactId : Nat
  periodMs : Nat
deriving Repr, DecidableEq

/-- The Chat view's polling-relevant state: whether the component is mounted,
the selected contact, the set of live interval timers in the runtime, the
handle the current effect run would clear (`clearInterval(interval)`), and a
fresh-handle counter. -/
structure ChatPollState where
  mounted : Bool
  selected : Option Nat
  timers : List PollTimer
  current : Option Nat
  nextId : Nat
deriving Repr, DecidableEq

/-- The events that drive the polling effect: a commit where the selected
contact changed (covering selection, switching and deselection) and the
component unmounting. -/
inductive ChatEvent
  | select (contact : Option Nat)
  | unmount
deriving Repr, DecidableEq

/-- Run the cleanup of the previous effect: `clearInterval` on the interval it
created, if it created one. -/
def clearCurrent (s : ChatPollState) : List PollTimer :=
  match s.current with
  | some t => s.timers.filter (fun p => p.id != t)
  | none => s.timers

/-- The `useEffect([selectedUser, user])` of `Chat.jsx` under React's effect
semantics: on a dependency change React first runs the previous run's
cleanup, then the body, which — only when a contact is selected —
starts `setInterval(fetchConversation, 2000)` and returns
`() => clearInterval(interval)`; on unmount only the cleanup runs.  (The
`user` dependency is held fixed and present, as on the mounted page.) -/
def pollStep (s : ChatPollState) : ChatEvent → ChatPollState
  | ChatEvent.select c =>
    if s.mounted then
      match c with
      | some contact =>
        { mounted := true, selected := some contact,
          timers := clearCurrent s ++ [{ id := s.nextId, contactId := contact, periodMs := 2000 }],
          current := some s.nextId, nextId := s.nextId + 1 }
      | none =>
        { mounted := true, selected := none, timers := clearCurrent s,
          current := none, nextId := s.nextId }
    else s
  | ChatEvent.unmount =>
    if s.mounted then
      { mounted := false, selected := s.selected, timers := clearCurrent s,
        current := none, nextId := s.nextId }
    else s

/-- The state right after the Chat view mounts: no contact selected, so the
first effect run starts no interval. -/
def pollInit : ChatPollState :=
  { mounted := true, selected := none, timers := [], current := none, nextId := 0 }

/-- The polling state after a sequence of selection-change/unmount events. -/
def pollRun (es : List ChatEvent) : ChatPollState :=
  es.foldl pollStep pollInit

/-- The polling invariant: an unmounted view holds no timer; a mounted view
holds no timer with no contact selected, and exactly one 2000 ms timer for the
selected contact otherwise (whose handle the effect's cleanup targets). -/
def PollInv (s : ChatPollState) : Prop :=
  (s.mounted = false → s.timers = [] ∧ s.current = none)
    ∧ (s.mounted = true → s.selected = none → s.timers = [] ∧ s.current = none)
    ∧ (s.mounted = true → ∀ c, s.selected = some c →
        ∃ t, s.timers = [{ id := t, contactId := c, periodMs := 2000 }]
          ∧ s.current = some t ∧ t < s.nextId)

theorem clearCurrent_of_inv (s : ChatPollState) (h : PollInv s)
    (hm : s.mounted = true) : clearCurrent s = [] := by
  match hsel : s.selected with
  | none =>
    have := h.2.1 hm hsel
    simp [clearCurrent, this.2, this.1]
  | some c =>
    obtain ⟨t, ht, hc, _⟩ := h.2.2 hm c hsel
    simp [clearCurrent, hc, ht]

theorem pollStep_inv (s : ChatPollState) (e : ChatEvent) (h : PollInv s) :
    PollInv (pollStep s e) := by
  match e with
  | ChatEvent.unmount =>
    match hm : s.mounted with
    | false => simpa [pollStep, hm] using h
    | true =>
      refine ⟨fun _ => ?_, fun hmt => ?_, fun hmt => ?_⟩ <;>
        simp_all [pollStep, clearCurrent_of_inv s h hm]
  | ChatEvent.select c =>
    match hm : s.mounted with
    | false => simpa [pollStep, hm] using h
    | true =>
      match c with
      | none =>
        refine ⟨by simp [pollStep, hm], fun _ _ => ?_, fun _ c hc => ?_⟩
        · simp [pollStep, hm, clearCurrent_of_inv s h hm]
        · simp [pollStep, hm] at hc
      | some contact =>
        refine ⟨by simp [pollStep, hm], fun _ hc => ?_, fun _ c hc => ?_⟩
        · simp [pollStep, hm] at hc
        · simp [pollStep, hm] at hc ⊢
          exact ⟨s.nextId, by simp [clearCurrent_of_inv s h hm, hc],
            by simp [hc], Nat.lt_succ_self _⟩

theorem pollRun_inv (es : List ChatEvent) : PollInv (pollRun es) := by
  suffices hgen : ∀ (l : List ChatEvent) (s : ChatPollState),
      PollInv s → PollInv (l.foldl pollStep s) by
    refine hgen es pollInit ⟨by simp [pollInit], by simp [pollInit], ?_⟩
    intro _ c hc
    simp [pollInit] at hc
  intro l
  induction l with
  | nil => exact fun s hs => hs
  | cons e rest ih => exact fun s hs => ih (pollStep s e) (pollStep_inv s e hs)

/-- Claim C5: after any sequence of contact selections, switches, deselections
and unmount, the polling invariant holds — a mounted view with a selected
contact owns exactly one repeating timer, at the fixed 2000 ms period, for
that contact; with no contact, or after unmount, no timer survives.  Moreover
selecting a (different) contact from a mounted state cancels the previous
timer and leaves exactly the one fresh timer for the new contact, and
deselecting cancels all timers. -/
theorem chat_poll_lifecycle (es : List ChatEvent) :
    PollInv (pollRun es)
      ∧ (pollRun (es ++ [ChatEvent.unmount])).timers = []
      ∧ ((pollRun es).mounted = true → ∀ c,
          (pollStep (pollRun es) (ChatEvent.select (some c))).timers
              = [{ id := (pollRun es).nextId, contactId := c, periodMs := 2000 }]
            ∧ (pollStep (pollRun es) (ChatEvent.select none)).timers = []) := by
  have hinv := pollRun_inv es
  refine ⟨hinv, ?_, ?_⟩
  · have : pollRun (es ++ [ChatEvent.unmount])
        = pollStep (pollRun es) ChatEvent.unmount := by
      simp [pollRun, List.foldl_append]
    rw [this]
    match hm : (pollRun es).mounted with
    | true => simp [pollStep, hm, clearCurrent_of_inv _ hinv hm]
    | false => simp [pollStep, hm, (hinv.1 hm).1]
  · intro hm c
    constructor
    · simp [pollStep, hm, clearCurrent_of_inv _ hinv hm]
    · simp [pollStep, hm, clearCurrent_of_inv _ hinv hm]

/-- The Chat view's send-relevant state: current user id, selected contact id,
the input value and the in-flight `sending` flag. -/
structure ChatSendState where
  userId : Option Nat
  selectedUserId : Option Nat
  newMessage : String
  sending : Bool
deriving Repr, DecidableEq

/-- Whitespace trimming as `String.prototype.trim`, over the character list so
the kernel can evaluate it. -/
def jsTrim (s : String) : String :=
  String.mk (((s.data.dropWhile Char.isWhitespace).reverse.dropWhile
    Char.isWhitespace).reverse)

/-- The actions `handleSendMessage` can trigger: the create-message request,
and the immediate `fetchConversation()` / `fetchUnreadCounts()` refreshes. -/
inductive ChatAction
  | createMessage (senderId receiverId : Nat) (content : String)
  | refreshConversation
  | refreshUnreadCounts
deriving Repr, DecidableEq

/-- The client-side rejection guard of `handleSendMessage`:
`if (!newMessage.trim() || !selectedUser || !user || sending) return`. -/
def sendRejected (s : ChatSendState) : Bool :=
  jsTrim s.newMessage == "" || s.selectedUserId.isNone || s.userId.isNone || s.sending

/-- The synchronous prefix of `handleSendMessage`: the guard, then
`setSending(true)` and the `messagesAPI.create` request with the trimmed
content. -/
def handleSendMessageStart (s : ChatSendState) : ChatSendState × List ChatAction :=
  if sendRejected s then (s, [])
  else
    match s.userId, s.selectedUserId with
    | some uid, some sel =>
      ({ s with sending := true },
       [ChatAction.createMessage uid sel (jsTrim s.newMessage)])
    | _, _ => (s, [])

/-- The continuation after the create request resolves successfully:
`setNewMessage('')`, the immediate `fetchConversation()` and
`fetchUnreadCounts()` refreshes, and `setSending(false)` in the
`finally`. -/
def handleSendMessageSuccess (s : ChatSendState) : ChatSendState × List ChatAction :=
  ({ s with newMessage := "", sending := false },
   [ChatAction.refreshConversation, ChatAction.refreshUnreadCounts])

def isCreateMessage : ChatAction → Bool
  | ChatAction.createMessage _ _ _ => true
  | _ => false

def countCreates (l : List ChatAction) : Nat := (l.filter isCreateMessage).length

/-- Two rapid submits: the first submit's synchronous prefix, a second submit
while the first is still in flight, then the first request's resolution; the
final state and every action triggered, in order. -/
def rapidDoubleSubmit (s : ChatSendState) : ChatSendState × List ChatAction :=
  ((handleSendMessageSuccess
      (handleSendMessageStart (handleSendMessageStart s).1).1).1,
   (handleSendMessageStart s).2
     ++ (handleSendMessageStart (handleSendMessageStart s).1).2
     ++ (handleSendMessageSuccess
          (handleSendMessageStart (handleSendMessageStart s).1).1).2)

/-- Claim C6: a submit is rejected with no create-message request whenever the
trimmed content is empty, no contact is selected, the user is absent, or a
send is in flight; and from a valid state two rapid submits with the first
still in flight produce exactly one create-message call, after which the input
is cleared, the conversation and unread counts refresh immediately, and the
sending flag is released. -/
theorem chat_send_guard (s : ChatSendState) (a b : Nat)
    (hu : s.userId = some a) (hb : s.selectedUserId = some b)
    (hmsg : (jsTrim s.newMessage == "") = false) (hsending : s.sending = false) :
    rapidDoubleSubmit s
        = ({ s with newMessage := "", sending := false },
           [ChatAction.createMessage a b (jsTrim s.newMessage),
            ChatAction.refreshConversation, ChatAction.refreshUnreadCounts])
      ∧ countCreates (rapidDoubleSubmit s).2 = 1
      ∧ (∀ s' : ChatSendState, sendRejected s' = true →
          handleSendMessageStart s' = (s', [])) := by
  have hrej : sendRejected s = false := by
    simp [sendRejected, hu, hb, hmsg, hsending]
  have h1 : handleSendMessageStart s
      = ({ s with sending := true },
         [ChatAction.createMessage a b (jsTrim s.newMessage)]) := by
    simp [handleSendMessageStart, hrej, hu, hb]
  have hrej2 : sendRejected { s with sending := true } = true := by
    simp [sendRejected]
  have h2 : handleSendMessageStart { s with sending := true }
      = ({ s with sending := true }, []) := by
    simp [handleSendMessageStart, hrej2]
  refine ⟨?_, ?_, fun s' h => by simp [handleSendMessageStart, h]⟩
  · simp [rapidDoubleSubmit, h1, h2, handleSendMessageSuccess]
  · simp [rapidDoubleSubmit, h1, h2, handleSendMessageSuccess,
      countCreates, isCreateMessage]

/-- Witness for claim C6 at a concrete send state. -/
theorem chat_send_guard_witness :
    countCreates (rapidDoubleSubmit
        { userId := some 1, selectedUserId := some 2,
          newMessage := " hi ", sending := false }).2 = 1 :=
  (chat_send_guard
    { userId := some 1, selectedUserId := some 2,
      newMessage := " hi ", sending := false }
    1 2 rfl rfl (by decide) rfl).2.1

/-- A stored message: sender, receiver, content and the read flag (plus its
backend identifier, used by the mark-as-read call). -/
structure Message where
  id : Nat
  senderId : Nat
  receiverId : Nat
  content : String
  read : Bool
deriving Repr, DecidableEq

/-- Modelled from the spec: the conversation the backend collaborator returns
for the (userId1, userId2) pair — the messages exchanged between exactly those
two identifiers, in stored order. -/
def getConversation (store : List Message) (userId1 userId2 : Nat) : List Message :=
  store.filter (fun m =>
    (m.senderId == userId1 && m.receiverId == userId2)
      || (m.senderId == userId2 && m.receiverId == userId1))

/-- Modelled from the spec: the backend's idempotent mark-as-read transition —
the stored message with the given id gets its read flag set. -/
def markAsRead (store : List Message) (messageId : Nat) : List Message :=
  store.map (fun m => if m.id == messageId then { m with read := true } else m)

/-- The unread test from `Chat.jsx`:
`m.receiverId === user.id && !m.read`. -/
def isUnreadFor (me : Nat) (m : Message) : Bool := m.receiverId == me && !m.read

/-- The per-contact count computed inside `fetchUnreadCounts`: the number of
messages of that contact's conversation addressed to the current user and not
yet read. -/
def unreadCount (store : List Message) (me contact : Nat) : Nat :=
  ((getConversation store me contact).filter (isUnreadFor me)).length

/-- `Chat.fetchUnreadCounts`: for every listed contact (the users list already
excludes the current user), fetch that contact's conversation and pair the
contact id with its unread count — the shape of the `counts` object. -/
def fetchUnreadCounts (store : List Message) (me : Nat) (contacts : List User) :
    List (Nat × Nat) :=
  contacts.map (fun u => (u.id, unreadCount store me u.id))

/-- One Active-state cycle of `Chat.fetchConversation`: fetch the selected
contact's conversation, and mark as read — one backend call per message — each
fetched message addressed to the current user whose read flag is unset. -/
def fetchConversationCycle (store : List Message) (me contact : Nat) : List Message :=
  ((getConversation store me contact).filter (isUnreadFor me)).foldl
    (fun st m => markAsRead st m.id) store

/-- Marking a batch of ids at once; `foldl_markAsRead_eq_map` shows the
sequential mark-as-read loop equals one such pass. -/
def markReadFn (ids : List Nat) (m : Message) : Message :=
  if m.id ∈ ids then { m with read := true } else m

theorem foldl_markAsRead_eq_map (msgs : List Message) (store : List Message) :
    msgs.foldl (fun st m => markAsRead st m.id) store
      = store.map (markReadFn (msgs.map (fun m => m.id))) := by
  induction msgs generalizing store with
  | nil =>
    have hid2 : markReadFn [] = fun m => m := by
      funext m
      simp [markReadFn]
    simp [hid2]
  | cons m ms ih =>
    rw [List.foldl_cons, ih (markAsRead store m.id)]
    unfold markAsRead
    rw [List.map_map]
    apply List.map_congr_left
    intro x _
    simp only [Function.comp_apply, List.map_cons]
    by_cases hx : x.id = m.id
    · by_cases h2 : m.id ∈ ms.map (fun mm => mm.id) <;>
        simp [markReadFn, hx, h2]
    · simp [markReadFn, hx]

theorem getConversation_map_markReadFn (store : List Message) (ids : List Nat)
    (a b : Nat) :
    getConversation (store.map (markReadFn ids)) a b
      = (getConversation store a b).map (markReadFn ids) := by
  unfold getConversation
  rw [List.filter_map]
  congr 1
  apply List.filter_congr
  intro m _
  simp only [Function.comp_apply, markReadFn]
  split <;> rfl

theorem cycle_marks_all_read (store : List Message) (me b : Nat) :
    ∀ m ∈ getConversation (fetchConversationCycle store me b) me b,
      m.receiverId = me → m.read = true := by
  intro m hm hr
  unfold fetchConversationCycle at hm
  rw [foldl_markAsRead_eq_map, getConversation_map_markReadFn] at hm
  obtain ⟨x, hx, hfx⟩ := List.mem_map.mp hm
  by_cases hid : x.id ∈ ((getConversation store me b).filter (isUnreadFor me)).map
      (fun m => m.id)
  · rw [← hfx]
    simp [markReadFn, hid]
  · rw [← hfx] at hr ⊢
    simp only [markReadFn, if_neg hid] at hr ⊢
    by_contra hread
    apply hid
    refine List.mem_map.mpr ⟨x, List.mem_filter.mpr ⟨hx, ?_⟩, rfl⟩
    simp [isUnreadFor, hr, Bool.eq_false_iff.mpr hread]

theorem unreadCount_after_cycle (store : List Message) (me b : Nat) :
    unreadCount (fetchConversationCycle store me b) me b = 0 := by
  unfold unreadCount
  rw [List.length_eq_zero, List.filter_eq_nil_iff]
  intro m hm
  have hall := cycle_marks_all_read store me b m hm
  simp [isUnreadFor]
  intro hrecv
  exact hall hrecv

/-- Contact B of the spec's unread-count scenario. -/
def contactB : User := { id := 2, name := some "B", email := none, role := "student" }

/-- The scenario store: three messages from contact B (id 2) to user A (id 1),
two unread, one read. -/
def chatStore : List Message :=
  [ { id := 1, senderId := 2, receiverId := 1, content := "one", read := false },
    { id := 2, senderId := 2, receiverId := 1, content := "two", read := false },
    { id := 3, senderId := 2, receiverId := 1, content := "three", read := true } ]

/-- Claim C7: the computed unread count for a contact is exactly the number of
messages of that contact's conversation whose receiver is the current user and
whose read flag is unset; after one Active-state fetch/mark-as-read cycle
every conversation message addressed to the current user is read, so the
contact's unread count becomes 0 — in the spec's scenario (3 stored messages
from B to A, 2 unread) the count is 2 before the cycle and 0 after. -/
theorem chat_unread_counts (store : List Message) (me b : Nat)
    (contacts : List User) :
    fetchUnreadCounts store me contacts
        = contacts.map (fun u =>
            (u.id, ((getConversation store me u.id).filter
              (fun m => m.receiverId == me && !m.read)).length))
      ∧ (∀ m ∈ getConversation (fetchConversationCycle store me b) me b,
          m.receiverId = me → m.read = true)
      ∧ unreadCount (fetchConversationCycle store me b) me b = 0
      ∧ unreadCount chatStore 1 2 = 2
      ∧ fetchUnreadCounts chatStore 1 [contactB] = [(2, 2)]
      ∧ unreadCount (fetchConversationCycle chatStore 1 2) 1 2 = 0
      ∧ fetchUnreadCounts (fetchConversationCycle chatStore 1 2) 1 [contactB]
          = [(2, 0)] := by
  refine ⟨rfl, cycle_marks_all_read store me b, unreadCount_after_cycle store me b,
    by decide, by decide, by decide, by decide⟩

end SchoolApp
